import Mathlib

/-! Verification development for the CrazyJump bot (src/bot.py): a shallow
embedding of its persistent-store operations, the time-entry parsing and
normalization, the access-guard decorators, the multi-step conversation flows,
and the background reconciliation jobs, together with theorems checking the
repository specification against the code. -/

/-- Character strings are modelled as lists of characters. Message texts are
assumed ASCII-representable: the model implements the ASCII fragment of the
Python behaviour of the built-in int and the str methods used by the bot. -/
abbrev Str := List Char

/-- ASCII whitespace stripped by the Python built-in int before parsing:
space, tab, newline, carriage return, vertical tab, form feed. -/
def isPyWs (c : Char) : Bool :=
  decide (c.toNat = 32) || decide (c.toNat = 9) || decide (c.toNat = 10) ||
    decide (c.toNat = 13) || decide (c.toNat = 11) || decide (c.toNat = 12)

/-- ASCII decimal digit test. -/
def isDigitC (c : Char) : Bool := decide (48 ≤ c.toNat) && decide (c.toNat ≤ 57)

/-- Numeric value of an ASCII digit. -/
def digitVal (c : Char) : Nat := c.toNat - 48

/-- Leading and trailing whitespace removal performed by the Python built-in
int on its string argument. -/
def stripWs (s : Str) : Str :=
  ((s.dropWhile isPyWs).reverse.dropWhile isPyWs).reverse

/-- Continuation of a Python decimal integer literal after its first digit:
further digits, with single underscores allowed between digits (PEP 515). -/
def digitsUndAux : Nat → Str → Option Nat
  | acc, [] => some acc
  | acc, c :: rest =>
    if isDigitC c then digitsUndAux (acc * 10 + digitVal c) rest
    else if c = '_' then
      match rest with
      | [] => none
      | d :: rest2 => if isDigitC d then digitsUndAux (acc * 10 + digitVal d) rest2 else none
    else none

/-- Full parse of a Python decimal digit sequence (nonempty digits with single
embedded underscores); none where Python would raise ValueError. -/
def parseDigitsUnd : Str → Option Nat
  | [] => none
  | c :: rest => if isDigitC c then digitsUndAux (digitVal c) rest else none

/-- Model of the Python built-in int on text, ASCII fragment: strip
whitespace, allow one optional sign, then a decimal digit sequence with
optional single underscores between digits. none models ValueError. -/
def py_int (s : Str) : Option Int :=
  match stripWs s with
  | [] => none
  | c :: rest =>
    if c = '+' then (parseDigitsUnd rest).map (fun n => (n : Int))
    else if c = '-' then (parseDigitsUnd rest).map (fun n => -(n : Int))
    else (parseDigitsUnd (c :: rest)).map (fun n => (n : Int))

/-- The replace of colons by dots done first by process_time and
process_edit_time on the incoming text. -/
def replaceColonDot (s : Str) : Str := s.map (fun c => if c = ':' then '.' else c)

/-- Python str.split on the dot character: every occurrence separates, and
empty pieces are kept. -/
def splitOnDot : Str → List Str
  | [] => [[]]
  | c :: rest =>
    if c = '.' then [] :: splitOnDot rest
    else
      match splitOnDot rest with
      | [] => [[c]]
      | piece :: pieces => (c :: piece) :: pieces

/-- Zero padding to two digits, as the Python format specification 02d used by
process_time on values known to lie in 0..99. -/
def pad2 (n : Nat) : Str :=
  if n < 10 then ['0', Char.ofNat (48 + n)]
  else [Char.ofNat (48 + n / 10), Char.ofNat (48 + n % 10)]

/-- The canonical stored time string: zero-padded hour, a colon, zero-padded
minute — the value process_time writes after replacing the dot back by a
colon. -/
def canonicalTime (h m : Nat) : Str := pad2 h ++ ':' :: pad2 m

/-- The time-format validation shared by process_time and process_edit_time
(src/bot.py lines 1203-1214 and 1321-1331): replace colons with dots, split on
dots, require exactly two components that the Python int accepts, with hour in
0..23 and minute in 0..59. none models the ValueError re-prompt branch. The
range check makes both values natural numbers. -/
def parseTimeInput (text : Str) : Option (Nat × Nat) :=
  match splitOnDot (replaceColonDot text) with
  | [hs, ms] =>
    match py_int hs, py_int ms with
    | some hv, some mv =>
      if 0 ≤ hv ∧ hv < 24 ∧ 0 ≤ mv ∧ mv < 60 then some (hv.toNat, mv.toNat) else none
    | some _, none => none
    | none, _ => none
  | _ => none

/-- A row of the schedule table. -/
structure Slot where
  schedule_id : Nat
  trainer_id : Option Int
  location : Str
  date : Str
  time : Str
  max_participants : Nat
  current_participants : Nat
deriving DecidableEq

/-- Outcome of the time-entry handlers: re-prompt on bad format, rejection of
an existing slot, or a successful write. -/
inductive TimeResult where
  | invalid
  | duplicate
  | ok
deriving DecidableEq

/-- The duplicate check of process_time: SELECT 1 FROM schedule WHERE date = ?
AND location = ? AND time = ?. -/
def hasTriple (sched : List Slot) (location date timev : Str) : Bool :=
  sched.any (fun s =>
    decide (s.location = location) && decide (s.date = date) && decide (s.time = timev))

/-- AUTOINCREMENT id for a fresh schedule row. -/
def next_schedule_id (sched : List Slot) : Nat :=
  (sched.map (fun s => s.schedule_id)).foldr max 0 + 1

/-- process_time (src/bot.py lines 1203-1249): validate the time text, reject
a duplicate at the same (location, date, time), otherwise INSERT a row with
capacity 10, no trainer, and the canonical colon-separated zero-padded time. -/
def process_time (text date location : Str) (sched : List Slot) : TimeResult × List Slot :=
  match parseTimeInput text with
  | none => (TimeResult.invalid, sched)
  | some (h, m) =>
    let t := canonicalTime h m
    if hasTriple sched location date t then (TimeResult.duplicate, sched)
    else (TimeResult.ok,
      sched ++ [{ schedule_id := next_schedule_id sched, trainer_id := none,
                  location := location, date := date, time := t,
                  max_participants := 10, current_participants := 0 }])

/-- process_edit_time (src/bot.py lines 1321-1345): validate the time text and
UPDATE the time of the row with the given schedule_id; there is no duplicate
check. -/
def process_edit_time (text : Str) (schedule_id : Nat) (sched : List Slot) :
    TimeResult × List Slot :=
  match parseTimeInput text with
  | none => (TimeResult.invalid, sched)
  | some (h, m) =>
    (TimeResult.ok, sched.map (fun s =>
      if s.schedule_id = schedule_id then { s with time := canonicalTime h m } else s))

/-- delete_schedule (src/bot.py lines 1347-1376): DELETE FROM schedule WHERE
schedule_id = ?. -/
def delete_schedule (schedule_id : Nat) (sched : List Slot) : List Slot :=
  sched.filter (fun s => decide (¬ s.schedule_id = schedule_id))

/-- One or two ASCII digits, as each numeric field of the literal time shape
named by the claims. -/
def digits12 : Str → Bool
  | [a] => isDigitC a
  | [a, b] => isDigitC a && isDigitC b
  | _ => false

/-- Decimal value of a one- or two-digit field. -/
def decVal : Str → Nat
  | [a] => digitVal a
  | [a, b] => digitVal a * 10 + digitVal b
  | _ => 0

/-- The literal time shape named by the claims: one or two ASCII digits, a dot
or colon separator, one or two ASCII digits, hour below 24, minute below 60
(zero padding optional). This definition follows the wording of the claim, to
be compared with what the code accepts. -/
def hhmmShape (text : Str) : Bool :=
  match splitOnDot (replaceColonDot text) with
  | [hs, ms] => digits12 hs && digits12 ms && decide (decVal hs < 24) && decide (decVal ms < 60)
  | _ => false

/-- No two schedule rows share the same (location, date, time) triple. -/
def triplesUnique : List Slot → Bool
  | [] => true
  | s :: rest => !hasTriple rest s.location s.date s.time && triplesUnique rest

/-- A row of the users table (all schema columns; instants such as join_date,
stored as ISO-8601 strings that compare lexicographically in chronological
order, are modelled as integer timestamps in seconds). reminders_enabled is
nullable for rows predating the additive migration. -/
structure UserRow where
  user_id : Int
  username : Str
  first_name : Str
  last_name : Str
  join_date : Int
  last_activity : Int
  notifications_enabled : Int
  is_trainer : Int
  reminders_enabled : Option Int
deriving DecidableEq

/-- A row of the payments table; the uuid4 payment token is modelled as an
opaque numeric id. -/
structure Payment where
  payment_id : Nat
  user_id : Int
  plan_name : Str
  amount : Int
  status : Str
  created_at : Int
  confirmed_at : Option Int
deriving DecidableEq

/-- A row of the subscriptions table (columns the modelled operations touch;
the uuid token is an opaque numeric id, instants are integer timestamps). -/
structure Subscription where
  subscription_id : Nat
  user_id : Int
  plan_name : Str
  sessions_total : Nat
  sessions_used : Nat
  price : Int
  status : Str
  expires_at : Int
deriving DecidableEq

/-- A row of the trainers table. -/
structure Trainer where
  trainer_id : Int
  full_name : Str
  specialization : Str
  bio : Str
  photo_id : Str
deriving DecidableEq

/-- A row of the bookings table. -/
structure Booking where
  booking_id : Nat
  user_id : Int
  schedule_id : Nat
  booking_date : Int
  status : Str
deriving DecidableEq

/-- The whole relational store: the six tables, plus whether the users table
already carries the reminders_enabled column (the one additive migration of
init_db). -/
structure DBState where
  hasRemindersColumn : Bool
  users : List UserRow
  payments : List Payment
  subscriptions : List Subscription
  trainers : List Trainer
  schedule : List Slot
  bookings : List Booking
deriving DecidableEq

/-- The status literal used throughout the schema. -/
def activeStr : Str := "active".data

/-- init_db (src/bot.py lines 76-179) applied to an existing database file:
CREATE TABLE IF NOT EXISTS and CREATE INDEX IF NOT EXISTS leave existing rows
unchanged; the single additive migration adds the reminders_enabled column
with default 1 when the schema introspection finds it missing, and existing
rows then read the default. -/
def init_db (st : DBState) : DBState :=
  if st.hasRemindersColumn then st
  else { st with hasRemindersColumn := true,
                 users := st.users.map (fun u => { u with reminders_enabled := some 1 }) }

/-- backup_to_file (src/bot.py lines 201-212): the sqlite3 Connection.backup
call — the native hot-backup API — copies the entire database into the
destination file as one consistent point-in-time snapshot, so the backup file
holds exactly the source state. -/
def backup_to_file (st : DBState) : DBState := st

/-- Database.reconnect (src/bot.py lines 226-234): close the connection and
re-run init_db against the database file. -/
def Database.reconnect (st : DBState) : DBState := init_db st

/-- Row count of every table. -/
def table_counts (st : DBState) : Nat × Nat × Nat × Nat × Nat × Nat :=
  (st.users.length, st.payments.length, st.subscriptions.length, st.trainers.length,
   st.schedule.length, st.bookings.length)

/-- Result of Database.execute as selected by the fetchone and fetchall
flags: cursor.fetchone gives at most one row, cursor.fetchall gives all rows,
otherwise the call returns nothing. -/
inductive ExecResult (Row : Type) where
  | fetchedOne (r : Option Row)
  | fetchedAll (rs : List Row)
  | noFetch
deriving DecidableEq

/-- Database.execute (src/bot.py lines 181-199) over an abstract storage
engine. A query is a function from the committed state to either the engine
exception or a successor state with its result rows. On success the implicit
transaction commits — the successor state becomes the committed state — and
rows are fetched per the flags; on any failure the transaction is rolled back,
the committed state is kept unchanged, and the causing exception is re-raised
to the caller. -/
def Database.execute {St Row Err : Type} (run : St → Except Err (St × List Row))
    (fetchone fetchall : Bool) (st : St) : Except Err (ExecResult Row) × St :=
  match run st with
  | Except.ok (st2, rows) =>
    (Except.ok (if fetchone then ExecResult.fetchedOne rows.head?
      else if fetchall then ExecResult.fetchedAll rows else ExecResult.noFetch), st2)
  | Except.error e => (Except.error e, st)

/-- Cartesian product of two lists, used to give the relational semantics of a
SQL join as product plus filter. -/
def listProd {α β : Type} (xs : List α) (ys : List β) : List (α × β) :=
  xs.flatMap (fun x => ys.map (fun y => (x, y)))

/-- Three days in seconds: datetime.timedelta(days=3). -/
def threeDays : Int := 3 * 86400

/-- One day in seconds: datetime.timedelta(days=1). -/
def oneDay : Int := 86400

/-- The SELECT of check_subscriptions (src/bot.py lines 1500-1508):
subscriptions joined to users on user_id, filtered to rows with status active
and expires_at at most now plus three days. There is no lower bound on
expires_at. -/
def check_subscriptions_select (now : Int) (subs : List Subscription)
    (users : List UserRow) : List (Subscription × UserRow) :=
  (listProd subs users).filter (fun r =>
    decide (r.2.user_id = r.1.user_id) && decide (r.1.expires_at ≤ now + threeDays) &&
      decide (r.1.status = activeStr))

/-- The notification loop of check_subscriptions (lines 1515-1527): a message
is attempted for a selected row exactly when the joined notifications_enabled
value is truthy. The resulting list holds the notified user ids. -/
def check_subscriptions_notify (now : Int) (subs : List Subscription)
    (users : List UserRow) : List Int :=
  ((check_subscriptions_select now subs users).filter
    (fun r => decide (¬ r.2.notifications_enabled = 0))).map (fun r => r.1.user_id)

/-- Expiry within the next three days, as the claim words it: the expiry
instant lies between now and now plus three days. This definition follows the
wording of the claim, to be compared with the selection the code performs. -/
def withinNext3Days (now e : Int) : Bool :=
  decide (now ≤ e) && decide (e ≤ now + threeDays)

/-- The SELECT of send_reminders (src/bot.py lines 1544-1555): schedule joined
to bookings on schedule_id and to users on user_id, filtered to slots dated
exactly tomorrow, bookings with status active, and users whose
reminders_enabled is NULL or 1. The LEFT JOIN to trainers only decorates the
reminder text and cannot change the selected set (trainer_id is the trainers
primary key), so it is omitted. -/
def send_reminders_select (tomorrow : Str) (sched : List Slot)
    (bookings : List Booking) (users : List UserRow) :
    List (Slot × Booking × UserRow) :=
  (listProd sched (listProd bookings users)).filter (fun r =>
    decide (r.1.schedule_id = r.2.1.schedule_id) && decide (r.2.1.user_id = r.2.2.user_id) &&
      decide (r.1.date = tomorrow) && decide (r.2.1.status = activeStr) &&
      (decide (r.2.2.reminders_enabled = none) || decide (r.2.2.reminders_enabled = some 1)))

/-- Existence check of a users row: SELECT 1 FROM users WHERE user_id = ?. -/
def user_exists (st : DBState) (uid : Int) : Bool :=
  st.users.any (fun u => decide (u.user_id = uid))

/-- Existence check of a trainers row: SELECT 1 FROM trainers WHERE
trainer_id = ?. -/
def trainer_exists (st : DBState) (uid : Int) : Bool :=
  st.trainers.any (fun t => decide (t.trainer_id = uid))

/-- UPDATE users SET is_trainer = 1 WHERE user_id = ? (first step of the
add-trainer wizard, src/bot.py line 952). -/
def set_is_trainer (uid : Int) (st : DBState) : DBState :=
  { st with users := st.users.map (fun u =>
      if u.user_id = uid then { u with is_trainer := 1 } else u) }

/-- send_welcome (src/bot.py lines 436-458): INSERT the users row only when no
row with that user_id exists, with notifications_enabled defaulting to 1,
is_trainer defaulting to 0, and reminders_enabled written as 1. -/
def send_welcome (uid : Int) (uname fname lname : Str) (now : Int) (st : DBState) : DBState :=
  if user_exists st uid then st
  else { st with users := st.users ++ [⟨uid, uname, fname, lname, now, now, 1, 0, some 1⟩] }

/-- toggle_notifications (src/bot.py lines 648-680): flip the truthiness of
notifications_enabled for the given user (Python not on the stored integer,
written back as a 0 or 1 boolean). -/
def toggle_notifications (uid : Int) (st : DBState) : DBState :=
  { st with users := st.users.map (fun u =>
      if u.user_id = uid then
        { u with notifications_enabled := if u.notifications_enabled = 0 then 1 else 0 }
      else u) }

/-- toggle_reminders (src/bot.py lines 682-715) calls user.get on a
sqlite3.Row, which has no get method; the handler raises AttributeError before
reaching its UPDATE and the surrounding except leaves the table unchanged. -/
def toggle_reminders (_uid : Int) (st : DBState) : DBState := st

/-- The row-mutating operations the message handlers perform on the store.
Restoring an uploaded backup file (process_backup_file) replaces the whole
database file and is outside this row-operation model. -/
inductive Op where
  | start (uid : Int) (uname fname lname : Str) (now : Int)
  | buyPlan (p : Payment)
  | toggleNotif (uid : Int)
  | toggleRem (uid : Int)
  | promote (uid : Int)
  | addTrainerRow (t : Trainer)
  | addTime (text date location : Str)
  | editTime (text : Str) (sid : Nat)
  | deleteSlot (sid : Nat)

/-- Effect of each handler-level mutation on the store. The trainers INSERT
fails on its primary key when the row exists (the exception is caught by the
handler), leaving the table unchanged. -/
def applyOp : Op → DBState → DBState
  | Op.start uid un fn ln now, st => send_welcome uid un fn ln now st
  | Op.buyPlan p, st => { st with payments := st.payments ++ [p] }
  | Op.toggleNotif uid, st => toggle_notifications uid st
  | Op.toggleRem uid, st => toggle_reminders uid st
  | Op.promote uid, st => set_is_trainer uid st
  | Op.addTrainerRow t, st =>
      if trainer_exists st t.trainer_id then st
      else { st with trainers := st.trainers ++ [t] }
  | Op.addTime text date location, st =>
      { st with schedule := (process_time text date location st.schedule).2 }
  | Op.editTime text sid, st =>
      { st with schedule := (process_edit_time text sid st.schedule).2 }
  | Op.deleteSlot sid, st => { st with schedule := delete_schedule sid st.schedule }

/-- The pending next-step handlers of the multi-step flows: the add-trainer
wizard (collect id, name, specialization, bio, photo) and the schedule
time-entry and time-edit steps. -/
inductive Step where
  | addTrainerId
  | trainerName (user_id : Int)
  | trainerSpec (user_id : Int) (full_name : Str)
  | trainerBio (user_id : Int) (full_name : Str) (specialization : Str)
  | trainerPhoto (user_id : Int) (full_name : Str) (specialization : Str) (bio : Str)
  | timeEntry (date : Str) (location : Str)
  | editTime (schedule_id : Nat)
deriving DecidableEq

/-- An inbound message: its text and, when it carries a photo, the file id of
the photo. -/
structure Msg where
  text : Str
  photo : Option Str
deriving DecidableEq

/-- One inbound message processed by the pending next-step handler. Output:
the new database state and the handler registered for that user's next message
(none means the flow ended or was dropped — register_next_step_handler is
one-shot, so a step stays pending only if the handler registers it again).
Mirrors process_add_trainer, process_trainer_name, process_trainer_spec,
process_trainer_bio, process_trainer_photo, process_time and
process_edit_time together with their register_next_step_handler calls
(src/bot.py lines 944-1003, 1203-1249, 1321-1345). -/
def runStep : Step → Msg → DBState → DBState × Option Step
  | Step.addTrainerId, msg, st =>
    match py_int msg.text with
    | none => (st, none)
    | some uid =>
      if user_exists st uid then (set_is_trainer uid st, some (Step.trainerName uid))
      else (st, none)
  | Step.trainerName uid, msg, st => (st, some (Step.trainerSpec uid msg.text))
  | Step.trainerSpec uid fn, msg, st => (st, some (Step.trainerBio uid fn msg.text))
  | Step.trainerBio uid fn sp, msg, st => (st, some (Step.trainerPhoto uid fn sp msg.text))
  | Step.trainerPhoto uid fn sp b, msg, st =>
    match msg.photo with
    | some pid =>
      if trainer_exists st uid then (st, none)
      else ({ st with trainers := st.trainers ++ [⟨uid, fn, sp, b, pid⟩] }, none)
    | none => (st, none)
  | Step.timeEntry date location, msg, st =>
    ({ st with schedule := (process_time msg.text date location st.schedule).2 }, none)
  | Step.editTime sid, msg, st =>
    ({ st with schedule := (process_edit_time msg.text sid st.schedule).2 }, none)

/-- Outcome of a guarded handler as seen by the dispatch layer: the handler
ran, a fixed access-denied reply was sent instead, or an exception was caught
and logged inside the wrapper. The wrapper being a total function into this
type models that nothing propagates to the dispatcher. -/
inductive GuardResult (α : Type) where
  | handled (a : α)
  | accessDenied
  | caught (e : Str)
deriving DecidableEq

/-- admin_required (src/bot.py lines 263-282): run the handler only when the
caller id equals the configured ADMIN_ID; otherwise send the fixed
access-denied reply and leave the handler uninvoked. The whole wrapper body
sits inside try/except, so a handler exception is caught and logged. -/
def admin_required {α : Type} (adminId : Int) (handler : DBState → DBState × Except Str α)
    (userId : Int) (st : DBState) : GuardResult α × DBState :=
  if userId = adminId then
    match handler st with
    | (st2, Except.ok a) => (GuardResult.handled a, st2)
    | (st2, Except.error e) => (GuardResult.caught e, st2)
  else (GuardResult.accessDenied, st)

/-- trainer_required (src/bot.py lines 284-303): as admin_required, the guard
being an existence lookup in the trainers table. -/
def trainer_required {α : Type} (handler : DBState → DBState × Except Str α)
    (userId : Int) (st : DBState) : GuardResult α × DBState :=
  if trainer_exists st userId then
    match handler st with
    | (st2, Except.ok a) => (GuardResult.handled a, st2)
    | (st2, Except.error e) => (GuardResult.caught e, st2)
  else (GuardResult.accessDenied, st)

theorem isPyWs_of_isDigitC {c : Char} (h : isDigitC c = true) : isPyWs c = false := by
  simp [isDigitC] at h
  simp [isPyWs]
  omega

theorem stripWs_single {a : Char} (h : isPyWs a = false) : stripWs [a] = [a] := by
  simp [stripWs, List.dropWhile_cons, h]

theorem stripWs_pair {a b : Char} (ha : isPyWs a = false) (hb : isPyWs b = false) :
    stripWs [a, b] = [a, b] := by
  simp [stripWs, List.dropWhile_cons, ha, hb]

theorem digit_ne_plus {a : Char} (h : isDigitC a = true) : ¬ a = '+' := by
  intro he
  subst he
  exact absurd h (by decide)

theorem digit_ne_minus {a : Char} (h : isDigitC a = true) : ¬ a = '-' := by
  intro he
  subst he
  exact absurd h (by decide)

theorem py_int_digits12 {s : Str} (h : digits12 s = true) :
    py_int s = some ((decVal s : Int)) := by
  match s, h with
  | [a], h =>
    have ha : isDigitC a = true := by simpa [digits12] using h
    rw [py_int, stripWs_single (isPyWs_of_isDigitC ha)]
    simp [digit_ne_plus ha, digit_ne_minus ha, parseDigitsUnd, ha, digitsUndAux, decVal]
  | [a, b], h =>
    have hab : isDigitC a = true ∧ isDigitC b = true := by
      simpa [digits12] using h
    rw [py_int,
      stripWs_pair (isPyWs_of_isDigitC hab.1) (isPyWs_of_isDigitC hab.2)]
    simp [digit_ne_plus hab.1, digit_ne_minus hab.1, parseDigitsUnd, hab.1, hab.2,
      digitsUndAux, decVal]

theorem parseTimeInput_of_shape {text : Str} (h : hhmmShape text = true) :
    ∃ hm : Nat × Nat, parseTimeInput text = some hm ∧ hm.1 < 24 ∧ hm.2 < 60 := by
  rw [hhmmShape] at h
  rw [parseTimeInput]
  rcases hp : splitOnDot (replaceColonDot text) with _ | ⟨hs, _ | ⟨ms, _ | _⟩⟩ <;>
    rw [hp] at h <;> simp at h
  obtain ⟨⟨⟨h1, h2⟩, h3⟩, h4⟩ := h
  refine ⟨(decVal hs, decVal ms), ?_, h3, h4⟩
  have hc : (0 : Int) ≤ (decVal hs : Int) ∧ ((decVal hs : Int)) < 24 ∧
      (0 : Int) ≤ (decVal ms : Int) ∧ ((decVal ms : Int)) < 60 := by
    refine ⟨by omega, by omega, by omega, by omega⟩
  simp [py_int_digits12 h1, py_int_digits12 h2, hc]

/-- C1 (amended): the time inputs the add-time step accepts are exactly those
whose text, after replacing colons with dots, splits into two components the
Python int accepts (optional surrounding whitespace, optional sign, underscore
digit separators), with hour below 24 and minute below 60. Every accepted
input that is not a duplicate is stored as the zero-padded canonical HH:MM
value regardless of separator; every rejected input inserts no row; and every
input of the literal HH.MM or HH:MM digit shape is accepted. -/
theorem C1_time_normalization :
    (∀ text date location sched h m,
       parseTimeInput text = some (h, m) →
       hasTriple sched location date (canonicalTime h m) = false →
       process_time text date location sched =
         (TimeResult.ok, sched ++
           [{ schedule_id := next_schedule_id sched, trainer_id := none,
              location := location, date := date, time := canonicalTime h m,
              max_participants := 10, current_participants := 0 }])) ∧
    (∀ text date location sched,
       parseTimeInput text = none →
       process_time text date location sched = (TimeResult.invalid, sched)) ∧
    (∀ text, hhmmShape text = true →
       ∃ hm : Nat × Nat, parseTimeInput text = some hm ∧ hm.1 < 24 ∧ hm.2 < 60) := by
  refine ⟨?_, ?_, fun text h => parseTimeInput_of_shape h⟩
  · intro text date location sched h m hp hdup
    simp [process_time, hp, hdup]
  · intro text date location sched hp
    simp [process_time, hp]

/-- C1 witness: the in-shape input 7:5 is accepted and stored as the
zero-padded canonical 07:05. -/
theorem C1_time_normalization_witness :
    process_time ("7:5".data) ("2025-01-15".data) ("L".data) [] =
      (TimeResult.ok, [⟨1, none, "L".data, "2025-01-15".data, "07:05".data, 10, 0⟩]) := by
  have h := C1_time_normalization.1 ("7:5".data) ("2025-01-15".data) ("L".data) [] 7 5
    (by decide) (by decide)
  exact h

/-- C1 counterexample: the input +18.30 lies outside the HH.MM / HH:MM digit
shape, yet the add-time step accepts it and inserts a schedule row (stored as
18:30), so inputs outside the claimed shape are not all rejected. -/
theorem C1_shape_counterexample :
    hhmmShape ("+18.30".data) = false ∧
    process_time ("+18.30".data) ("2025-01-15".data) ("L".data) [] =
      (TimeResult.ok, [⟨1, none, "L".data, "2025-01-15".data, "18:30".data, 10, 0⟩]) := by
  constructor
  · decide
  · decide

theorem hasTriple_append (l1 l2 : List Slot) (a b c : Str) :
    hasTriple (l1 ++ l2) a b c = (hasTriple l1 a b c || hasTriple l2 a b c) := by
  simp [hasTriple, List.any_append]

theorem hasTriple_false_of_filter {sched : List Slot} {p : Slot → Bool} {a b c : Str}
    (h : hasTriple sched a b c = false) : hasTriple (sched.filter p) a b c = false := by
  induction sched with
  | nil => simp [hasTriple]
  | cons s rest ih =>
    rw [hasTriple] at h
    simp only [List.any_cons, Bool.or_eq_false_iff] at h
    rw [List.filter_cons]
    cases hps : p s with
    | true =>
      simp only [if_pos]
      rw [hasTriple]
      simp only [List.any_cons, Bool.or_eq_false_iff]
      exact ⟨h.1, ih h.2⟩
    | false =>
      simp only [Bool.false_eq_true, if_false]
      exact ih h.2

theorem triplesUnique_filter {sched : List Slot} {p : Slot → Bool}
    (h : triplesUnique sched = true) : triplesUnique (sched.filter p) = true := by
  induction sched with
  | nil => simp [triplesUnique]
  | cons s rest ih =>
    rw [triplesUnique] at h
    simp only [Bool.and_eq_true, Bool.not_eq_true'] at h
    rw [List.filter_cons]
    cases hps : p s with
    | true =>
      simp only [if_pos]
      rw [triplesUnique]
      simp only [Bool.and_eq_true, Bool.not_eq_true']
      exact ⟨hasTriple_false_of_filter h.1, ih h.2⟩
    | false =>
      simp only [Bool.false_eq_true, if_false]
      exact ih h.2

theorem triplesUnique_append_single {sched : List Slot} {x : Slot}
    (h : triplesUnique sched = true)
    (hx : hasTriple sched x.location x.date x.time = false) :
    triplesUnique (sched ++ [x]) = true := by
  induction sched with
  | nil =>
    simp [triplesUnique, hasTriple]
  | cons s rest ih =>
    rw [triplesUnique] at h
    simp only [Bool.and_eq_true, Bool.not_eq_true'] at h
    rw [hasTriple] at hx
    simp only [List.any_cons, Bool.or_eq_false_iff] at hx
    rw [List.cons_append, triplesUnique]
    simp only [Bool.and_eq_true, Bool.not_eq_true']
    refine ⟨?_, ih h.2 hx.2⟩
    rw [hasTriple_append, hasTriple]
    simp only [List.any_cons, List.any_nil, Bool.or_false, Bool.or_eq_false_iff]
    refine ⟨h.1, ?_⟩
    have h5 := hx.1
    rw [hasTriple]
    simp only [List.any_cons, List.any_nil, Bool.or_false]
    simp only [Bool.and_eq_false_iff, decide_eq_false_iff_not] at h5 ⊢
    rcases h5 with (h' | h') | h'
    · exact Or.inl (Or.inl fun he => h' (Eq.symm he))
    · exact Or.inl (Or.inr fun he => h' (Eq.symm he))
    · exact Or.inr fun he => h' (Eq.symm he)

/-- C2 (amended): inserting a ScheduleSlot at an occupied (location, date,
time) triple via the add-time step is rejected with no new row, and the
add-time and delete operations preserve uniqueness of the triples; the
edit-time step, however, performs no duplicate check, so it does not preserve
uniqueness (see the counterexample). -/
theorem C2_uniqueness_amended :
    (∀ text date location sched h m,
       parseTimeInput text = some (h, m) →
       hasTriple sched location date (canonicalTime h m) = true →
       process_time text date location sched = (TimeResult.duplicate, sched)) ∧
    (∀ text date location sched, triplesUnique sched = true →
       triplesUnique (process_time text date location sched).2 = true) ∧
    (∀ sid sched, triplesUnique sched = true →
       triplesUnique (delete_schedule sid sched) = true) := by
  refine ⟨?_, ?_, fun sid sched hu => triplesUnique_filter hu⟩
  · intro text date location sched h m hp hdup
    simp [process_time, hp, hdup]
  · intro text date location sched hu
    cases hp : parseTimeInput text with
    | none => simp [process_time, hp, hu]
    | some hm =>
      obtain ⟨h, m⟩ := hm
      cases hdup : hasTriple sched location date (canonicalTime h m) with
      | true => simp [process_time, hp, hdup, hu]
      | false =>
        simp only [process_time, hp, hdup, Bool.false_eq_true, if_false]
        exact triplesUnique_append_single hu hdup

/-- C2 witness: inserting at an occupied (location, date, time) triple is
rejected and the schedule is unchanged. -/
theorem C2_uniqueness_witness :
    process_time ("10.00".data) ("D".data) ("L".data)
        [⟨1, none, "L".data, "D".data, "10:00".data, 10, 0⟩] =
      (TimeResult.duplicate, [⟨1, none, "L".data, "D".data, "10:00".data, 10, 0⟩]) :=
  C2_uniqueness_amended.1 ("10.00".data) ("D".data) ("L".data)
    [⟨1, none, "L".data, "D".data, "10:00".data, 10, 0⟩] 10 0 (by decide) (by decide)

/-- C2 counterexample: editing the time of slot 2 to 10.00 succeeds without
any duplicate check and creates a second row with the same (location, date,
time) triple as slot 1, so not every schedule-mutating operation keeps the
triples unique. -/
theorem C2_edit_duplicate_counterexample :
    triplesUnique [⟨1, none, "L".data, "D".data, "10:00".data, 10, 0⟩,
                   ⟨2, none, "L".data, "D".data, "11:00".data, 10, 0⟩] = true ∧
    process_edit_time ("10.00".data) 2
        [⟨1, none, "L".data, "D".data, "10:00".data, 10, 0⟩,
         ⟨2, none, "L".data, "D".data, "11:00".data, 10, 0⟩] =
      (TimeResult.ok,
        [⟨1, none, "L".data, "D".data, "10:00".data, 10, 0⟩,
         ⟨2, none, "L".data, "D".data, "10:00".data, 10, 0⟩]) ∧
    triplesUnique
        [⟨1, none, "L".data, "D".data, "10:00".data, 10, 0⟩,
         ⟨2, none, "L".data, "D".data, "10:00".data, 10, 0⟩] = false := by
  refine ⟨by decide, by decide, by decide⟩

theorem mem_listProd {α β : Type} {xs : List α} {ys : List β} {p : α × β} :
    p ∈ listProd xs ys ↔ p.1 ∈ xs ∧ p.2 ∈ ys := by
  cases p with
  | mk a b => simp [listProd]

/-- C3 (amended): the expiry job selects exactly the active subscriptions,
joined to their owning user, whose expires_at is at most now plus three days —
with no lower bound, so active subscriptions already past expiry are selected
too — and a notification is attempted for a selected row exactly when the
owning user's notifications_enabled value is truthy. -/
theorem C3_expiry_selection :
    (∀ now subs users (s : Subscription) (u : UserRow),
       (s, u) ∈ check_subscriptions_select now subs users ↔
         (s ∈ subs ∧ u ∈ users ∧ u.user_id = s.user_id ∧ s.status = activeStr ∧
           s.expires_at ≤ now + threeDays)) ∧
    (∀ now subs users (uid : Int),
       uid ∈ check_subscriptions_notify now subs users ↔
         ∃ s u, (s, u) ∈ check_subscriptions_select now subs users ∧
           ¬ u.notifications_enabled = 0 ∧ uid = s.user_id) := by
  constructor
  · intro now subs users s u
    rw [check_subscriptions_select]
    rw [List.mem_filter, mem_listProd]
    simp
    tauto
  · intro now subs users uid
    rw [check_subscriptions_notify]
    simp only [List.mem_map, List.mem_filter]
    constructor
    · rintro ⟨⟨s, u⟩, ⟨hmem, hflag⟩, hid⟩
      exact ⟨s, u, hmem, by simpa using hflag, hid.symm⟩
    · rintro ⟨s, u, hmem, hflag, hid⟩
      exact ⟨(s, u), ⟨hmem, by simpa using hflag⟩, hid.symm⟩

/-- C3 witness: an active subscription expiring two days from now belongs to
the selected set when the user joins, and with notifications enabled its user
id appears in the notified list; a selected row whose user has notifications
disabled yields no notification. -/
theorem C3_expiry_witness :
    (⟨1, 7, "P".data, 4, 0, 2400, activeStr, 172800⟩, ⟨7, [], [], [], 0, 0, 1, 0, some 1⟩) ∈
      check_subscriptions_select 0
        [⟨1, 7, "P".data, 4, 0, 2400, activeStr, 172800⟩]
        [⟨7, [], [], [], 0, 0, 1, 0, some 1⟩] ∧
    ¬ (7 : Int) ∈ check_subscriptions_notify 0
        [⟨1, 7, "P".data, 4, 0, 2400, activeStr, 172800⟩]
        [⟨7, [], [], [], 0, 0, 0, 0, some 1⟩] := by
  constructor
  · exact (C3_expiry_selection.1 0 _ _ _ _).mpr (by decide)
  · intro hmem
    obtain ⟨s, u, hsel, hflag, hid⟩ := (C3_expiry_selection.2 0 _ _ 7).mp hmem
    have := (C3_expiry_selection.1 0 _ _ s u).mp hsel
    have hu : u = ⟨7, [], [], [], 0, 0, 0, 0, some 1⟩ := by
      have h2 := this.2.1
      simpa using h2
    rw [hu] at hflag
    exact hflag rfl

/-- C3 counterexample: an active subscription whose expiry instant lies ten
days in the past is selected by the job, although it does not expire within
the next three days — the code has no lower time bound, so the selected set is
not exactly the subscriptions expiring within three days. -/
theorem C3_expired_included_counterexample :
    (⟨1, 7, "P".data, 4, 0, 2400, activeStr, -864000⟩, ⟨7, [], [], [], 0, 0, 1, 0, some 1⟩) ∈
      check_subscriptions_select 0
        [⟨1, 7, "P".data, 4, 0, 2400, activeStr, -864000⟩]
        [⟨7, [], [], [], 0, 0, 1, 0, some 1⟩] ∧
    withinNext3Days 0 (-864000) = false := by
  refine ⟨by decide, by decide⟩

/-- C4 (confirmed): a (slot, booking, user) row is selected by one iteration
of the session-reminder job exactly when the booking is active, its slot is
dated tomorrow, the user owns the booking, and the user's reminders_enabled
preference is NULL or 1; a user with reminders_enabled 0 is never selected. -/
theorem C4_reminder_selection :
    (∀ tomorrow sched bookings users (s : Slot) (b : Booking) (u : UserRow),
       (s, b, u) ∈ send_reminders_select tomorrow sched bookings users ↔
         (s ∈ sched ∧ b ∈ bookings ∧ u ∈ users ∧ s.schedule_id = b.schedule_id ∧
           b.user_id = u.user_id ∧ s.date = tomorrow ∧ b.status = activeStr ∧
           (u.reminders_enabled = none ∨ u.reminders_enabled = some 1))) ∧
    (∀ tomorrow sched bookings users (s : Slot) (b : Booking) (u : UserRow),
       u.reminders_enabled = some 0 →
       ¬ (s, b, u) ∈ send_reminders_select tomorrow sched bookings users) := by
  have hmain : ∀ tomorrow sched bookings users (s : Slot) (b : Booking) (u : UserRow),
      (s, b, u) ∈ send_reminders_select tomorrow sched bookings users ↔
        (s ∈ sched ∧ b ∈ bookings ∧ u ∈ users ∧ s.schedule_id = b.schedule_id ∧
          b.user_id = u.user_id ∧ s.date = tomorrow ∧ b.status = activeStr ∧
          (u.reminders_enabled = none ∨ u.reminders_enabled = some 1)) := by
    intro tomorrow sched bookings users s b u
    rw [send_reminders_select, List.mem_filter, mem_listProd]
    simp only [mem_listProd]
    simp
    tauto
  refine ⟨hmain, ?_⟩
  intro tomorrow sched bookings users s b u hz hmem
  have h := (hmain tomorrow sched bookings users s b u).mp hmem
  rcases h.2.2.2.2.2.2.2 with h' | h' <;> rw [hz] at h' <;> simp at h'

/-- C4 witness: a user with an active booking for a slot dated tomorrow and a
NULL reminders preference is selected; the same configuration with
reminders_enabled 0 is not. -/
theorem C4_reminder_witness :
    (⟨1, none, "L".data, "T".data, "10:00".data, 10, 1⟩, ⟨1, 7, 1, 0, activeStr⟩,
        (⟨7, [], [], [], 0, 0, 1, 0, none⟩ : UserRow)) ∈
      send_reminders_select ("T".data)
        [⟨1, none, "L".data, "T".data, "10:00".data, 10, 1⟩]
        [⟨1, 7, 1, 0, activeStr⟩]
        [⟨7, [], [], [], 0, 0, 1, 0, none⟩] ∧
    ¬ (⟨1, none, "L".data, "T".data, "10:00".data, 10, 1⟩, ⟨1, 7, 1, 0, activeStr⟩,
        (⟨7, [], [], [], 0, 0, 1, 0, some 0⟩ : UserRow)) ∈
      send_reminders_select ("T".data)
        [⟨1, none, "L".data, "T".data, "10:00".data, 10, 1⟩]
        [⟨1, 7, 1, 0, activeStr⟩]
        [⟨7, [], [], [], 0, 0, 1, 0, some 0⟩] := by
  constructor
  · exact (C4_reminder_selection.1 ("T".data) _ _ _ _ _ _).mpr (by decide)
  · exact C4_reminder_selection.2 ("T".data) _ _ _ _ _ _ rfl

/-- C5 (confirmed): for every query and flag combination, Database.execute
commits on success — the successor state becomes the committed state and the
rows requested by the fetch mode are returned — and on any failure keeps the
committed state unchanged (rollback) and re-raises the causing storage error
to the caller. -/
theorem C5_execute_transactional :
    ∀ {St Row Err : Type} (run : St → Except Err (St × List Row)) (f1 f2 : Bool) (st : St),
      (∀ st2 rows, run st = Except.ok (st2, rows) →
        Database.execute run f1 f2 st =
          (Except.ok (if f1 then ExecResult.fetchedOne rows.head?
            else if f2 then ExecResult.fetchedAll rows else ExecResult.noFetch), st2)) ∧
      (∀ e, run st = Except.error e →
        Database.execute run f1 f2 st = (Except.error e, st)) := by
  intro St Row Err run f1 f2 st
  constructor
  · intro st2 rows hr
    simp [Database.execute, hr]
  · intro e hr
    simp [Database.execute, hr]

/-- C5 witness: a succeeding query commits its successor state and returns its
one fetched row; a failing query leaves the state unchanged and surfaces the
original error. -/
theorem C5_execute_witness :
    Database.execute (fun n : Nat => (Except.ok (n + 1, [n]) : Except Str (Nat × List Nat)))
        true false 5 =
      (Except.ok (ExecResult.fetchedOne (some 5)), 6) ∧
    Database.execute (fun _ : Nat => (Except.error ("boom".data) : Except Str (Nat × List Nat)))
        true false 5 =
      (Except.error ("boom".data), 5) := by
  constructor
  · exact (C5_execute_transactional
      (fun n : Nat => (Except.ok (n + 1, [n]) : Except Str (Nat × List Nat)))
      true false 5).1 6 [5] rfl
  · exact (C5_execute_transactional
      (fun _ : Nat => (Except.error ("boom".data) : Except Str (Nat × List Nat)))
      true false 5).2 ("boom".data) rfl

/-- C6 (confirmed): backing up to a file — an exact point-in-time snapshot
taken by the native hot-backup API — and reconnecting the store against that
backup yields a store whose per-table row counts all equal the pre-backup
counts: the create-if-not-exists statements of init_db leave existing rows in
place and the one additive column migration changes no row counts. -/
theorem C6_backup_roundtrip :
    ∀ st : DBState, table_counts (Database.reconnect (backup_to_file st)) = table_counts st := by
  intro st
  cases h : st.hasRemindersColumn <;>
    simp [Database.reconnect, backup_to_file, init_db, table_counts, h]

/-- C7 (amended): on invalid input a step sends an error reply but registers
no next-step handler — register_next_step_handler is one-shot and the
invalid-input branches never call it again, so the flow is abandoned and the
user's next message falls to the steady-state handlers rather than staying on
the same step; on valid input the flow advances (next step registered, or the
final commit performed). In particular a non-photo message at the add-trainer
photo step ends the flow. -/
theorem C7_flow_transitions :
    (∀ uid fn sp b st (msg : Msg), msg.photo = none →
       runStep (Step.trainerPhoto uid fn sp b) msg st = (st, none)) ∧
    (∀ st (msg : Msg), py_int msg.text = none →
       runStep Step.addTrainerId msg st = (st, none)) ∧
    (∀ date location st (msg : Msg), parseTimeInput msg.text = none →
       runStep (Step.timeEntry date location) msg st = (st, none)) ∧
    (∀ st (msg : Msg) uid, py_int msg.text = some uid → user_exists st uid = true →
       runStep Step.addTrainerId msg st = (set_is_trainer uid st, some (Step.trainerName uid))) ∧
    (∀ uid st (msg : Msg),
       runStep (Step.trainerName uid) msg st = (st, some (Step.trainerSpec uid msg.text))) ∧
    (∀ uid fn sp b st (msg : Msg) pid, msg.photo = some pid →
       trainer_exists st uid = false →
       runStep (Step.trainerPhoto uid fn sp b) msg st =
         ({ st with trainers := st.trainers ++ [⟨uid, fn, sp, b, pid⟩] }, none)) := by
  refine ⟨?_, ?_, ?_, ?_, ?_, ?_⟩
  · intro uid fn sp b st msg h
    simp [runStep, h]
  · intro st msg h
    simp [runStep, h]
  · intro date location st msg h
    simp [runStep, process_time, h]
  · intro st msg uid h hu
    simp [runStep, h, hu]
  · intro uid st msg
    simp [runStep]
  · intro uid fn sp b st msg pid h ht
    simp [runStep, h, ht]

/-- C7 witness: a bad user id ends the add-trainer flow with no handler
registered, and a valid id advances to the name step. -/
theorem C7_flow_witness :
    runStep Step.addTrainerId ⟨"abc".data, none⟩ ⟨true, [], [], [], [], [], []⟩ =
      (⟨true, [], [], [], [], [], []⟩, none) ∧
    runStep (Step.trainerName 42) ⟨"Ivan".data, none⟩ ⟨true, [], [], [], [], [], []⟩ =
      (⟨true, [], [], [], [], [], []⟩, some (Step.trainerSpec 42 ("Ivan".data))) := by
  constructor
  · exact C7_flow_transitions.2.1 ⟨true, [], [], [], [], [], []⟩ ⟨"abc".data, none⟩ (by decide)
  · exact C7_flow_transitions.2.2.2.2.1 42 ⟨true, [], [], [], [], [], []⟩ ⟨"Ivan".data, none⟩

/-- C7 counterexample: sending a non-photo message at the add-trainer photo
step leaves no handler registered for the next message — the flow does not
stay on the photo step, contradicting the claim that an invalid input keeps
the step registered. -/
theorem C7_photo_counterexample :
    runStep (Step.trainerPhoto 42 ("N".data) ("S".data) ("B".data)) ⟨"hello".data, none⟩
        ⟨true, [⟨42, [], [], [], 0, 0, 1, 1, some 1⟩], [], [], [], [], []⟩ =
      (⟨true, [⟨42, [], [], [], 0, 0, 1, 1, some 1⟩], [], [], [], [], []⟩, none) := by
  decide

/-- C8 (confirmed): when the admin guard fails the handler is not invoked —
the wrapped call returns the fixed access-denied reply with the state
unchanged, for every handler — and likewise for the trainer guard when no
trainers row carries the caller id; a handler exception under a passing guard
is caught inside the wrapper (logged), so no guard or handler failure
propagates an exception to the dispatch layer. -/
theorem C8_guards :
    (∀ {α : Type} (adminId userId : Int) (st : DBState)
       (h1 h2 : DBState → DBState × Except Str α),
       ¬ userId = adminId →
       admin_required adminId h1 userId st = (GuardResult.accessDenied, st) ∧
       admin_required adminId h1 userId st = admin_required adminId h2 userId st) ∧
    (∀ {α : Type} (userId : Int) (st : DBState)
       (h1 h2 : DBState → DBState × Except Str α),
       trainer_exists st userId = false →
       trainer_required h1 userId st = (GuardResult.accessDenied, st) ∧
       trainer_required h1 userId st = trainer_required h2 userId st) ∧
    (∀ {α : Type} (adminId userId : Int) (st st2 : DBState) (e : Str)
       (h1 : DBState → DBState × Except Str α),
       h1 st = (st2, Except.error e) → userId = adminId →
       admin_required adminId h1 userId st = (GuardResult.caught e, st2)) := by
  refine ⟨?_, ?_, ?_⟩
  · intro α adminId userId st h1 h2 hne
    constructor <;> simp [admin_required, hne]
  · intro α userId st h1 h2 hne
    constructor <;> simp [trainer_required, hne]
  · intro α adminId userId st st2 e h1 hrun heq
    simp [admin_required, heq, hrun]

/-- C8 witness: a non-admin caller gets the access-denied reply with the state
unchanged even when the handler would throw; a caller with no trainers row is
likewise denied. -/
theorem C8_guards_witness :
    admin_required 1 (fun st => (st, (Except.error ("x".data) : Except Str Unit))) 2
        ⟨true, [], [], [], [], [], []⟩ =
      (GuardResult.accessDenied, ⟨true, [], [], [], [], [], []⟩) ∧
    trainer_required (fun st => (st, (Except.ok () : Except Str Unit))) 2
        ⟨true, [], [], [], [], [], []⟩ =
      (GuardResult.accessDenied, ⟨true, [], [], [], [], [], []⟩) := by
  constructor
  · exact (C8_guards.1 1 2 ⟨true, [], [], [], [], [], []⟩
      (fun st => (st, (Except.error ("x".data) : Except Str Unit)))
      (fun st => (st, (Except.error ("x".data) : Except Str Unit))) (by decide)).1
  · exact (C8_guards.2.1 2 ⟨true, [], [], [], [], [], []⟩
      (fun st => (st, (Except.ok () : Except Str Unit)))
      (fun st => (st, (Except.ok () : Except Str Unit))) (by decide)).1

theorem any_userid_map {l : List UserRow} {f : UserRow → UserRow}
    (hf : ∀ u, (f u).user_id = u.user_id) {uid : Int}
    (h : l.any (fun u => decide (u.user_id = uid)) = true) :
    (l.map f).any (fun u => decide (u.user_id = uid)) = true := by
  simp only [List.any_eq_true, List.mem_map] at h ⊢
  obtain ⟨u, hu, he⟩ := h
  refine ⟨f u, ⟨u, hu, rfl⟩, ?_⟩
  simp only [decide_eq_true_eq] at he ⊢
  rw [hf]
  exact he

/-- C9 (confirmed): the /start handler inserts the users row only when absent,
so a second /start — even at a later instant and with changed profile fields —
leaves the users table unchanged (same row, same join_date); and no
row-mutating operation of the program removes a users row: every operation
preserves the presence of each user id. -/
theorem C9_start_idempotent_no_delete :
    (∀ uid un fn ln now un2 fn2 ln2 now2 st,
       send_welcome uid un2 fn2 ln2 now2 (send_welcome uid un fn ln now st) =
         send_welcome uid un fn ln now st) ∧
    (∀ op st uid, user_exists st uid = true → user_exists (applyOp op st) uid = true) := by
  constructor
  · intro uid un fn ln now un2 fn2 ln2 now2 st
    cases h : user_exists st uid with
    | true => simp [send_welcome, h]
    | false =>
      have h2 : user_exists
          { st with users := st.users ++ [⟨uid, un, fn, ln, now, now, 1, 0, some 1⟩] }
          uid = true := by
        simp [user_exists, List.any_append]
      simp [send_welcome, h, h2]
  · intro op st uid h
    cases op with
    | start uid2 un fn ln now =>
      cases h2 : user_exists st uid2 with
      | true => simpa [applyOp, send_welcome, h2] using h
      | false =>
        simp only [applyOp, send_welcome, h2, Bool.false_eq_true, if_false]
        simp only [user_exists, List.any_append] at h ⊢
        simp [h]
    | buyPlan p => simpa [applyOp, user_exists] using h
    | toggleNotif uid2 =>
      simp only [applyOp, toggle_notifications, user_exists] at h ⊢
      refine any_userid_map ?_ h
      intro u
      by_cases hc : u.user_id = uid2 <;> simp [hc]
    | toggleRem uid2 => simpa [applyOp, toggle_reminders, user_exists] using h
    | promote uid2 =>
      simp only [applyOp, set_is_trainer, user_exists] at h ⊢
      refine any_userid_map ?_ h
      intro u
      by_cases hc : u.user_id = uid2 <;> simp [hc]
    | addTrainerRow t =>
      cases h2 : trainer_exists st t.trainer_id <;>
        simpa [applyOp, h2, user_exists] using h
    | addTime text date location => simpa [applyOp, user_exists] using h
    | editTime text sid => simpa [applyOp, user_exists] using h
    | deleteSlot sid => simpa [applyOp, user_exists] using h

/-- C9 witness: a second /start call with a different instant leaves the users
table of a one-user store unchanged, and deleting a schedule slot preserves
the user row. -/
theorem C9_start_witness :
    send_welcome 7 [] [] [] 99 (send_welcome 7 [] [] [] 5 ⟨true, [], [], [], [], [], []⟩) =
      send_welcome 7 [] [] [] 5 ⟨true, [], [], [], [], [], []⟩ ∧
    user_exists (applyOp (Op.deleteSlot 1)
        ⟨true, [⟨7, [], [], [], 5, 5, 1, 0, some 1⟩], [], [], [], [], []⟩) 7 = true := by
  constructor
  · exact C9_start_idempotent_no_delete.1 7 [] [] [] 5 [] [] [] 99 ⟨true, [], [], [], [], [], []⟩
  · exact C9_start_idempotent_no_delete.2 (Op.deleteSlot 1)
      ⟨true, [⟨7, [], [], [], 5, 5, 1, 0, some 1⟩], [], [], [], [], []⟩ 7 (by decide)

/-- C10 (confirmed): when the first add-trainer step receives a valid id of an
existing user, it immediately sets that user's is_trainer flag to 1 and
registers the name step, while the trainers table is untouched — the trainers
row is only inserted at the final photo step. A state with is_trainer 1 and no
trainers row is therefore reachable, so is_trainer 1 does not imply a trainers
row exists. -/
theorem C10_flag_before_trainer_row :
    ∀ st (msg : Msg) (uid : Int),
      py_int msg.text = some uid → user_exists st uid = true →
      (runStep Step.addTrainerId msg st).1.trainers = st.trainers ∧
      (runStep Step.addTrainerId msg st).2 = some (Step.trainerName uid) ∧
      (runStep Step.addTrainerId msg st).1.users.any
        (fun u => decide (u.user_id = uid) && decide (u.is_trainer = 1)) = true := by
  intro st msg uid hp hu
  have hrun : runStep Step.addTrainerId msg st =
      (set_is_trainer uid st, some (Step.trainerName uid)) := by
    simp [runStep, hp, hu]
  rw [hrun]
  refine ⟨rfl, rfl, ?_⟩
  simp only [set_is_trainer]
  simp only [user_exists, List.any_eq_true] at hu
  obtain ⟨u, hmem, hid⟩ := hu
  simp only [List.any_eq_true, List.mem_map]
  refine ⟨if u.user_id = uid then { u with is_trainer := 1 } else u, ⟨u, hmem, rfl⟩, ?_⟩
  simp only [decide_eq_true_eq] at hid
  simp [hid]

/-- C10 witness: after the first step runs on id 42 in a store whose only user
is 42 with is_trainer 0 and whose trainers table is empty, the reached state
has is_trainer 1 for user 42 and still no trainers row. -/
theorem C10_flag_witness :
    ((runStep Step.addTrainerId ⟨"42".data, none⟩
        ⟨true, [⟨42, [], [], [], 0, 0, 1, 0, some 1⟩], [], [], [], [], []⟩).1.users.any
      (fun u => decide (u.user_id = 42) && decide (u.is_trainer = 1)) = true) ∧
    (runStep Step.addTrainerId ⟨"42".data, none⟩
        ⟨true, [⟨42, [], [], [], 0, 0, 1, 0, some 1⟩], [], [], [], [], []⟩).1.trainers = [] := by
  have h := C10_flag_before_trainer_row
    ⟨true, [⟨42, [], [], [], 0, 0, 1, 0, some 1⟩], [], [], [], [], []⟩
    ⟨"42".data, none⟩ 42 (by decide) (by decide)
  exact ⟨h.2.2, h.1⟩
